import Mathlib

/-!
Shallow embedding of the Shared-Function Call Pipeline of
`src/kernelmodules/mainmodules/rpc/function_call.go` (package kmodulerpc).

The engine (v8go) is external to the repository; engine values and the
engine-side operations the pipeline uses (value creation, promise state
queries, `then`/`catch` attachment, object construction) are modelled as
pure data.  Each engine-loop task body from the source is embedded as a
pure function from its inputs to the trace of observable effects it
performs (calls on the kernel-event-loop context `klopr`, submissions of
follow-up tasks, sink writes), with a dedicated outcome constructor for a
Go `panic`.
-/

namespace KmoduleRpc

/-- Model of a JavaScript / v8 value as far as the pipeline inspects it. -/
inductive JSVal where
  | undef : JSVal
  | boolV : Bool → JSVal
  | numV : Int → JSVal
  | strV : String → JSVal
  | arrV : List JSVal → JSVal
  | objV : List (String × JSVal) → JSVal

/-- Model of `types.FunctionCallState`: the terminal outcome struct with
its `State` and `Error` string fields (as used at the
`writeRequestReturnResponse` call site in `v8makeSharedFunctionObject`). -/
structure FunctionCallState where
  State : String := ""
  Error : String := ""
  deriving DecidableEq, Repr

/-- The three states of a v8 promise (`v8.Pending`, `v8.Fulfilled`,
`v8.Rejected`) that `callInKernelEventLoopCheck` switches over. -/
inductive PromState where
  | pending : PromState
  | fulfilled : PromState
  | rejected : PromState
  deriving DecidableEq, Repr

/-- Model of a Go `error` value: `none` is the `nil` error. -/
abbrev GoError := Option String

/-- Observable effects of running the `callInKernelEventLoopCheck` body:
spawning the delayed re-submission goroutine, performing a microtask
checkpoint, or writing a terminal state to the response sink (the last
never occurs in this function; it is listed so that its absence is a
statement, not a modelling gap). -/
inductive PollEffect where
  | sleepThenResubmitCheck : Nat → PollEffect
  | performMicrotaskCheckpoint : PollEffect
  | sinkWrite : FunctionCallState → PollEffect
  deriving DecidableEq, Repr

/-- Embedding of `callInKernelEventLoopCheck` (function_call.go lines
19-43).  It switches on the promise state: `Pending` spawns a goroutine
that sleeps 1 millisecond and re-submits the check to the kernel event
loop; `Rejected` performs one microtask checkpoint; `Fulfilled` falls
through the switch.  In every case it returns the `nil` error. -/
def callInKernelEventLoopCheck (st : PromState) : List PollEffect × GoError :=
  match st with
  | PromState.pending => ([PollEffect.sleepThenResubmitCheck 1], none)
  | PromState.rejected => ([PollEffect.performMicrotaskCheckpoint], none)
  | PromState.fulfilled => ([], none)

/-- Calls performed on the kernel-event-loop context interface `klopr`
inside a task body. -/
inductive KloprOp where
  | setError : String → KloprOp
  | setResultNil : KloprOp
  deriving DecidableEq, Repr

/-- Embedding of the task body built inside `functionCallInEventloopFinall`
(function_call.go lines 50-59): it runs `callInKernelEventLoopCheck`,
calls `klopr.SetError` when that returned a non-nil error, and then
unconditionally calls `klopr.SetResult(nil)`. -/
def functionCallInEventloopFinallBody (st : PromState) :
    List PollEffect × List KloprOp :=
  let res := callInKernelEventLoopCheck st
  let errOps : List KloprOp :=
    match res.2 with
    | some e => [KloprOp.setError e]
    | none => []
  (res.1, errOps ++ [KloprOp.setResultNil])

/-- Model of `types.FunctionParameterCapsle`: a typed RPC parameter with
its type tag `CType` and dynamic value `Value`. -/
structure FunctionParameterCapsle where
  CType : String
  Value : JSVal

/-- Model of the v8 isolate as far as the marshaller uses it: `newValue`
models `v8.NewValue(iso, value)`, which can fail with an error. -/
structure Isolate where
  newValue : JSVal → Except String JSVal

/-- Result of running `convertRequestParametersToV8Parameters`: a normal
Go return of `(values, nil)`, a normal Go return of `(nil, error)`, or a
runtime fault (the Go index-out-of-range panic raised by
`parmTypes[hight]`). -/
inductive ConvResult where
  | ok : List JSVal → ConvResult
  | err : String → ConvResult
  | fault : ConvResult

/-- The loop of `convertRequestParametersToV8Parameters`
(function_call.go lines 272-319): `for hight, item := range reqparms`.
The Go expression `parmTypes[hight]` is modelled with `List.get?`, where
`none` is the out-of-range panic (`ConvResult.fault`).  The type-equality
check precedes the switch over the six supported tags; each supported tag
calls `v8.NewValue` and appends, the default case returns the
unsupported-datatype error. -/
def convertLoop (iso : Isolate) (parmTypes : List String)
    (reqparms : List FunctionParameterCapsle) (hight : Nat)
    (convertedValues : List JSVal) : ConvResult :=
  match reqparms with
  | [] => ConvResult.ok convertedValues
  | item :: rest =>
    match parmTypes.get? hight with
    | none => ConvResult.fault
    | some pt =>
      if item.CType ≠ pt then
        ConvResult.err "convertRequestParametersToV8Parameters: not same parameter"
      else
        match item.CType with
        | "boolean" =>
          match iso.newValue item.Value with
          | Except.error e =>
            ConvResult.err ("convertRequestParametersToV8Parameters: " ++ e)
          | Except.ok val =>
            convertLoop iso parmTypes rest (hight + 1) (convertedValues ++ [val])
        | "number" =>
          match iso.newValue item.Value with
          | Except.error e =>
            ConvResult.err ("convertRequestParametersToV8Parameters: " ++ e)
          | Except.ok val =>
            convertLoop iso parmTypes rest (hight + 1) (convertedValues ++ [val])
        | "string" =>
          match iso.newValue item.Value with
          | Except.error e =>
            ConvResult.err ("convertRequestParametersToV8Parameters: " ++ e)
          | Except.ok val =>
            convertLoop iso parmTypes rest (hight + 1) (convertedValues ++ [val])
        | "array" =>
          match iso.newValue item.Value with
          | Except.error e =>
            ConvResult.err ("convertRequestParametersToV8Parameters: " ++ e)
          | Except.ok val =>
            convertLoop iso parmTypes rest (hight + 1) (convertedValues ++ [val])
        | "object" =>
          match iso.newValue item.Value with
          | Except.error e =>
            ConvResult.err ("convertRequestParametersToV8Parameters: " ++ e)
          | Except.ok val =>
            convertLoop iso parmTypes rest (hight + 1) (convertedValues ++ [val])
        | "bytes" =>
          match iso.newValue item.Value with
          | Except.error e =>
            ConvResult.err ("convertRequestParametersToV8Parameters: " ++ e)
          | Except.ok val =>
            convertLoop iso parmTypes rest (hight + 1) (convertedValues ++ [val])
        | _ =>
          ConvResult.err "convertRequestParametersToV8Parameters: unsuported datatype"

/-- Embedding of `convertRequestParametersToV8Parameters`
(function_call.go lines 269-323). -/
def convertRequestParametersToV8Parameters (iso : Isolate)
    (parmTypes : List String) (reqparms : List FunctionParameterCapsle) :
    ConvResult :=
  convertLoop iso parmTypes reqparms 0 []

/-- The six supported parameter type tags (§6.5 of the spec; the six
switch cases of the source). -/
def supportedTags : List String :=
  ["boolean", "number", "string", "array", "object", "bytes"]

/-- Position `j` of the request parameter list validates and converts:
its tag equals the signature entry at the corresponding index, is one of
the six supported tags, and `v8.NewValue` succeeds on its value.  The
signature is read at offset `hight + j` to track the loop counter. -/
def stepOkAt (iso : Isolate) (parmTypes : List String)
    (reqparms : List FunctionParameterCapsle) (hight j : Nat) : Prop :=
  ∃ t c v, parmTypes.get? (hight + j) = some t ∧ reqparms.get? j = some c ∧
    c.CType = t ∧ c.CType ∈ supportedTags ∧ iso.newValue c.Value = Except.ok v

/-- Outcome of running an engine-loop task body: either it runs to the
end of the closure producing its observable effects, or it raises a Go
`panic`. -/
inductive TaskBodyOutcome (α : Type) where
  | completed : α → TaskBodyOutcome α
  | panicked : String → TaskBodyOutcome α

/-- Model of the v8 `Value.String()` stringification, used for
`info.Args()[0].String()`. -/
def v8String : JSVal → String
  | JSVal.undef => "undefined"
  | JSVal.boolV b => if b then "true" else "false"
  | JSVal.numV n => toString n
  | JSVal.strV s => s
  | JSVal.arrV _ => ""
  | JSVal.objV _ => "[object Object]"

/-- Model of `v8.FunctionCallbackInfo`: the argument list the engine
passes to a Go callback. -/
structure FunctionCallbackInfo where
  args : List JSVal

/-- Calls a v8-callback makes on the `SharedFunctionRequestContext`. -/
inductive CtxCall where
  | callFinal : CtxCall
  | callException : String → CtxCall

/-- Running a Go v8-callback: the context calls it makes and the value it
returns to the engine, or a Go panic (out-of-range argument indexing). -/
inductive CallbackRun where
  | returns : List CtxCall → JSVal → CallbackRun
  | panicked : CallbackRun

/-- Embedding of the `funcFinal` closure (function_call.go lines 93-96):
calls `request.functionCallFinal()` and returns `v8.Undefined`. -/
def funcFinal (_info : FunctionCallbackInfo) : CallbackRun :=
  CallbackRun.returns [CtxCall.callFinal] JSVal.undef

/-- Embedding of the `throwProm` closure (function_call.go lines 99-102):
calls `request.functionCallException(info.Args()[0].String())` and
returns `v8.Undefined`.  Indexing `Args()[0]` on an empty argument slice
is a Go panic. -/
def throwProm (info : FunctionCallbackInfo) : CallbackRun :=
  match info.args with
  | [] => CallbackRun.panicked
  | a :: _ => CallbackRun.returns [CtxCall.callException (v8String a)] JSVal.undef

/-- Model of a `*v8.Promise` as the pipeline touches it: its state plus
the settlement handlers attached through `Then` and `Catch`. -/
structure V8Promise where
  state : PromState
  thenHandlers :
    List ((FunctionCallbackInfo → CallbackRun) × (FunctionCallbackInfo → CallbackRun))
  catchHandlers : List (FunctionCallbackInfo → CallbackRun)

/-- Model of `Promise.Then(onFulfilled, onRejected)`: registers the
handler pair. -/
def promThen (p : V8Promise)
    (onFulfilled onRejected : FunctionCallbackInfo → CallbackRun) : V8Promise :=
  { p with thenHandlers := p.thenHandlers ++ [(onFulfilled, onRejected)] }

/-- Model of `Promise.Catch(onRejected)`: registers the handler. -/
def promCatch (p : V8Promise)
    (onRejected : FunctionCallbackInfo → CallbackRun) : V8Promise :=
  { p with catchHandlers := p.catchHandlers ++ [onRejected] }

/-- Model of a `*v8.Value` as the T4 step inspects it: whether
`IsPromise()` holds and what `AsPromise()` yields. -/
structure V8Value where
  isPromise : Bool
  asPromise : Except String V8Promise

/-- Effects of the `functionCallInEventloopPromiseOperation` task body:
the promise after handler attachment and the `klopr` calls made. -/
structure PromiseOpRun where
  attachedProm : V8Promise
  kloprOps : List KloprOp

/-- Embedding of the task body of `functionCallInEventloopPromiseOperation`
(function_call.go lines 80-115).  A non-promise result is
`panic("isnr promise")`; an `AsPromise` error is `panic(err)`; otherwise
`Then(funcFinal, throwProm)` and `Catch(throwProm)` are attached, the
final step is submitted (modelled by its error result
`submitFinallErr`), and on successful submission `klopr.SetResult(nil)`
is called.  On submission error the body plain-returns. -/
def functionCallInEventloopPromiseOperationBody (result : V8Value)
    (submitFinallErr : GoError) : TaskBodyOutcome PromiseOpRun :=
  if ¬result.isPromise then
    TaskBodyOutcome.panicked "isnr promise"
  else
    match result.asPromise with
    | Except.error e => TaskBodyOutcome.panicked e
    | Except.ok prom =>
      let prom1 := promThen prom funcFinal throwProm
      let prom2 := promCatch prom1 throwProm
      match submitFinallErr with
      | some _ => TaskBodyOutcome.completed ⟨prom2, []⟩
      | none => TaskBodyOutcome.completed ⟨prom2, [KloprOp.setResultNil]⟩

/-- Embedding of the task body of `functionCallInEventloop`
(function_call.go lines 136-150).  `proxFunction.Call` is modelled by its
result `callResult`; a non-nil call error is `panic(err)`.  On success
the promise-operation step is submitted (modelled by its error result);
on submission error the body plain-returns, otherwise
`klopr.SetResult(nil)` is called. -/
def functionCallInEventloopBody (callResult : Except String V8Value)
    (submitPromOpErr : GoError) : TaskBodyOutcome (List KloprOp) :=
  match callResult with
  | Except.error e => TaskBodyOutcome.panicked e
  | Except.ok _ =>
    match submitPromOpErr with
    | some _ => TaskBodyOutcome.completed []
    | none => TaskBodyOutcome.completed [KloprOp.setResultNil]

/-- Observable steps of the `functionCallInEventloopInit` task body. -/
inductive InitOp where
  | setError : String → InitOp
  | submitProxyObjectPrepare : InitOp
  | setResultNil : InitOp
  deriving DecidableEq, Repr

/-- Embedding of the task body of `functionCallInEventloopInit`
(function_call.go lines 230-250).  It converts the request parameters; on
error it plain-returns.  It builds the request object (modelled by its
result `objRes`); on error it plain-returns.  Then it calls
`functionCallInEventloopProxyObjectPrepare` — the submission of the next
pipeline step, the path on which the user function is eventually invoked
(modelled by its error result) — and on its error plain-returns,
otherwise calls `klopr.SetResult(nil)`.  A marshalling fault (Go panic)
propagates out of the body. -/
def functionCallInEventloopInitBody (iso : Isolate) (parmTypes : List String)
    (reqparms : List FunctionParameterCapsle) (objRes : Except String Unit)
    (submitPrepErr : GoError) : TaskBodyOutcome (List InitOp) :=
  match convertRequestParametersToV8Parameters iso parmTypes reqparms with
  | ConvResult.fault => TaskBodyOutcome.panicked "runtime error: index out of range"
  | ConvResult.err _ => TaskBodyOutcome.completed []
  | ConvResult.ok _ =>
    match objRes with
    | Except.error _ => TaskBodyOutcome.completed []
    | Except.ok _ =>
      match submitPrepErr with
      | some _ => TaskBodyOutcome.completed [InitOp.submitProxyObjectPrepare]
      | none =>
        TaskBodyOutcome.completed
          [InitOp.submitProxyObjectPrepare, InitOp.setResultNil]

/-- Model of the v8 `Object.Set(key, value)` on a plain object represented
as a field list: replaces the binding when the key is present, otherwise
appends it. -/
def objSet : List (String × JSVal) → String → JSVal → List (String × JSVal)
  | [], k, v => [(k, v)]
  | (k', v') :: rest, k, v =>
    if k' = k then (k, v) :: rest else (k', v') :: objSet rest k v

/-- Embedding of the inner per-header loop of `v8makeSharedFunctionObject`
(function_call.go lines 419-440): an empty engine array is created by
running `(function() \x7b return []; \x7d)();`, then each header value is
converted with `v8.NewValue` — an error there aborts the whole builder —
and pushed onto the array. -/
def v8buildHeaderSlice (iso : Isolate) :
    List String → List JSVal → Except String (List JSVal)
  | [], acc => Except.ok acc
  | value :: rest, acc =>
    match iso.newValue (JSVal.strV value) with
    | Except.error e => Except.error e
    | Except.ok v8Value => v8buildHeaderSlice iso rest (acc ++ [v8Value])

/-- Embedding of the header loop of `v8makeSharedFunctionObject`
(function_call.go lines 417-446): `for k, v := range
rrpcrequest.HttpRequest.Header`, building one array per header name and
storing it with `headers.Set(k, sliceObject)`. -/
def v8buildHeaders (iso : Isolate) :
    List (String × List String) → List (String × JSVal) →
    Except String (List (String × JSVal))
  | [], headers => Except.ok headers
  | (k, v) :: rest, headers =>
    match v8buildHeaderSlice iso v [] with
    | Except.error e => Except.error e
    | Except.ok slice => v8buildHeaders iso rest (objSet headers k (JSVal.arrV slice))

/-- Model of the HTTP request metadata the builder reads: the multi-valued
header map (Go `http.Header`; keys are unique since it is a map). -/
structure HttpRequestModel where
  Header : List (String × List String)

/-- The `Headers` object of the request object built by
`v8makeSharedFunctionObject` for an HTTP request (stored into the `http`
object at function_call.go line 481). -/
def v8makeSharedFunctionObjectHeaders (iso : Isolate) (req : HttpRequestModel) :
    Except String (List (String × JSVal)) :=
  v8buildHeaders iso req.Header []

/-- Modelled from the spec: the terminator state of
`SharedFunctionRequestContext` (C6).  The struct itself and its
terminator methods `writeRequestReturnResponse`, `functionCallFinal` and
`functionCallException` are declared in this package but their bodies are
not under `src/` (only their call sites in function_call.go are); the
spec (§3, §4.6, §8) describes a single-shot response sink guarded by a
`terminal` flag. -/
structure SharedFunctionRequestContext where
  terminal : Bool := false
  responseChanWrites : List FunctionCallState := []
  deriving DecidableEq, Repr

/-- Modelled from the spec: `writeRequestReturnResponse` delivers a
`FunctionCallState` through the response sink unless the context is
already terminal, in which case it is a no-op; the first delivery sets
the `terminal` flag. -/
def writeRequestReturnResponse (o : SharedFunctionRequestContext)
    (st : FunctionCallState) : SharedFunctionRequestContext :=
  if o.terminal then o
  else { terminal := true, responseChanWrites := o.responseChanWrites ++ [st] }

/-- Modelled from the spec: `functionCallFinal` emits the `ok` terminal
state through the guarded sink. -/
def functionCallFinal (o : SharedFunctionRequestContext) :
    SharedFunctionRequestContext :=
  writeRequestReturnResponse o { State := "ok" }

/-- Modelled from the spec: `functionCallException` emits the `exception`
terminal state carrying the stringified error. -/
def functionCallException (o : SharedFunctionRequestContext) (msg : String) :
    SharedFunctionRequestContext :=
  writeRequestReturnResponse o { State := "exception", Error := msg }

/-- The terminator signals that race on one request context: promise
fulfilment (`funcFinal` → `functionCallFinal`), promise rejection or user
throw (`throwProm` → `functionCallException`), and direct aborts
(`writeRequestReturnResponse` with an `aborted` state, as in the
`isConnected` failure path of function_call.go lines 363-379 and the
transport-disconnect path of the spec). -/
inductive TermSignal where
  | final : TermSignal
  | exception : String → TermSignal
  | abort : String → TermSignal
  deriving DecidableEq, Repr

/-- Dispatch of one terminator signal to the corresponding terminator. -/
def applyTermSignal (o : SharedFunctionRequestContext) :
    TermSignal → SharedFunctionRequestContext
  | TermSignal.final => functionCallFinal o
  | TermSignal.exception msg => functionCallException o msg
  | TermSignal.abort reason =>
    writeRequestReturnResponse o { State := "aborted", Error := reason }

/-- An arbitrary interleaving of terminator signals, applied in order. -/
def runSignals (o : SharedFunctionRequestContext) (sigs : List TermSignal) :
    SharedFunctionRequestContext :=
  sigs.foldl applyTermSignal o

/-- The `FunctionCallState` a signal writes when it is the first to win. -/
def signalOutcome : TermSignal → FunctionCallState
  | TermSignal.final => { State := "ok" }
  | TermSignal.exception msg => { State := "exception", Error := msg }
  | TermSignal.abort reason => { State := "aborted", Error := reason }

/-- A freshly created request context: not terminal, nothing sent. -/
def freshCtx : SharedFunctionRequestContext := {}

/-- An isolate whose `v8.NewValue` always succeeds and keeps the value;
used to instantiate theorems at concrete inputs. -/
def identityIsolate : Isolate := ⟨fun v => Except.ok v⟩

/-- An isolate whose `v8.NewValue` always fails; used to instantiate
theorems at inputs exercising the engine-error mode of the marshaller. -/
def failingIsolate : Isolate := ⟨fun _ => Except.error "newvalue failed"⟩

lemma applyTermSignal_of_terminal (o : SharedFunctionRequestContext)
    (s : TermSignal) (h : o.terminal = true) : applyTermSignal o s = o := by
  cases s <;>
    simp [applyTermSignal, functionCallFinal, functionCallException,
      writeRequestReturnResponse, h]

lemma runSignals_of_terminal (sigs : List TermSignal)
    (o : SharedFunctionRequestContext) (h : o.terminal = true) :
    runSignals o sigs = o := by
  induction sigs with
  | nil => rfl
  | cons s rest ih =>
    simp only [runSignals, List.foldl_cons]
    rw [applyTermSignal_of_terminal o s h]
    exact ih

lemma applyTermSignal_fresh (s : TermSignal) :
    applyTermSignal freshCtx s =
      { terminal := true, responseChanWrites := [signalOutcome s] } := by
  cases s <;> rfl

lemma convertLoop_cons_ok (iso : Isolate) (parmTypes : List String)
    (item : FunctionParameterCapsle) (rest : List FunctionParameterCapsle)
    (hight : Nat) (acc : List JSVal) (t : String) (v : JSVal)
    (hget : parmTypes.get? hight = some t) (hty : item.CType = t)
    (hsup : item.CType ∈ supportedTags)
    (hnv : iso.newValue item.Value = Except.ok v) :
    convertLoop iso parmTypes (item :: rest) hight acc =
      convertLoop iso parmTypes rest (hight + 1) (acc ++ [v]) := by
  rw [List.get?_eq_getElem?] at hget
  simp only [supportedTags, List.mem_cons, List.mem_singleton,
    List.not_mem_nil, or_false] at hsup
  rcases hsup with h | h | h | h | h | h <;>
    (rw [hty] at h; subst h; simp [convertLoop, hget, hty, hnv])

lemma convertLoop_cons_mismatch (iso : Isolate) (parmTypes : List String)
    (item : FunctionParameterCapsle) (rest : List FunctionParameterCapsle)
    (hight : Nat) (acc : List JSVal) (t : String)
    (hget : parmTypes.get? hight = some t) (hty : item.CType ≠ t) :
    convertLoop iso parmTypes (item :: rest) hight acc =
      ConvResult.err "convertRequestParametersToV8Parameters: not same parameter" := by
  rw [List.get?_eq_getElem?] at hget
  simp [convertLoop, hget, hty]

lemma convertLoop_cons_nverr (iso : Isolate) (parmTypes : List String)
    (item : FunctionParameterCapsle) (rest : List FunctionParameterCapsle)
    (hight : Nat) (acc : List JSVal) (t e : String)
    (hget : parmTypes.get? hight = some t) (hty : item.CType = t)
    (hsup : item.CType ∈ supportedTags)
    (hnv : iso.newValue item.Value = Except.error e) :
    convertLoop iso parmTypes (item :: rest) hight acc =
      ConvResult.err ("convertRequestParametersToV8Parameters: " ++ e) := by
  rw [List.get?_eq_getElem?] at hget
  simp only [supportedTags, List.mem_cons, List.mem_singleton,
    List.not_mem_nil, or_false] at hsup
  rcases hsup with h | h | h | h | h | h <;>
    (rw [hty] at h; subst h; simp [convertLoop, hget, hty, hnv])

lemma convertLoop_cons_unsupported (iso : Isolate) (parmTypes : List String)
    (item : FunctionParameterCapsle) (rest : List FunctionParameterCapsle)
    (hight : Nat) (acc : List JSVal) (t : String)
    (hget : parmTypes.get? hight = some t) (hty : item.CType = t)
    (hsup : item.CType ∉ supportedTags) :
    convertLoop iso parmTypes (item :: rest) hight acc =
      ConvResult.err "convertRequestParametersToV8Parameters: unsuported datatype" := by
  simp only [supportedTags, List.mem_cons, List.mem_singleton,
    List.not_mem_nil, or_false, not_or] at hsup
  obtain ⟨h1, h2, h3, h4, h5, h6⟩ := hsup
  rw [hty] at h1 h2 h3 h4 h5 h6
  simp only [convertLoop, hget]
  rw [if_neg (by simp [hty])]
  rw [hty]
  split <;> simp_all

lemma convertLoop_skip (pre : Nat) :
    ∀ (iso : Isolate) (parmTypes : List String)
      (reqparms : List FunctionParameterCapsle) (hight : Nat) (acc : List JSVal),
      (∀ j, j < pre → stepOkAt iso parmTypes reqparms hight j) →
      pre ≤ reqparms.length →
      ∃ acc2, convertLoop iso parmTypes reqparms hight acc =
        convertLoop iso parmTypes (reqparms.drop pre) (hight + pre) acc2 := by
  induction pre with
  | zero => intro iso pt ps hight acc _ _; exact ⟨acc, by simp⟩
  | succ n ih =>
    intro iso pt ps hight acc hok hlen
    cases ps with
    | nil => simp at hlen
    | cons item rest =>
      obtain ⟨t, c, v, hget, hc, hty, hsup, hnv⟩ := hok 0 (Nat.succ_pos n)
      have hc' : item = c := by simpa using hc
      subst hc'
      rw [Nat.add_zero] at hget
      rw [convertLoop_cons_ok iso pt item rest hight acc t v hget hty hsup hnv]
      have hok' : ∀ j, j < n → stepOkAt iso pt rest (hight + 1) j := by
        intro j hj
        obtain ⟨t2, c2, v2, hget2, hcs2, hty2, hsup2, hnv2⟩ :=
          hok (j + 1) (Nat.succ_lt_succ hj)
        refine ⟨t2, c2, v2, ?_, ?_, hty2, hsup2, hnv2⟩
        · rw [show hight + 1 + j = hight + (j + 1) by omega]
          exact hget2
        · simpa using hcs2
      obtain ⟨acc2, heq⟩ := ih iso pt rest (hight + 1) (acc ++ [v]) hok'
        (by simpa using hlen)
      refine ⟨acc2, ?_⟩
      rw [heq, List.drop_succ_cons, show hight + (n + 1) = hight + 1 + n by omega]

lemma convertLoop_all_ok :
    ∀ (reqparms : List FunctionParameterCapsle) (iso : Isolate)
      (parmTypes : List String) (hight : Nat) (acc : List JSVal),
      (∀ j, j < reqparms.length → stepOkAt iso parmTypes reqparms hight j) →
      ∃ vs, convertLoop iso parmTypes reqparms hight acc = ConvResult.ok (acc ++ vs) ∧
        List.Forall₂ (fun c v => iso.newValue c.Value = Except.ok v) reqparms vs := by
  intro reqparms
  induction reqparms with
  | nil =>
    intro iso pt hight acc _
    exact ⟨[], by simp [convertLoop], List.Forall₂.nil⟩
  | cons item rest ih =>
    intro iso pt hight acc hok
    obtain ⟨t, c, v, hget, hc, hty, hsup, hnv⟩ := hok 0 (by simp)
    have hc' : item = c := by simpa using hc
    subst hc'
    rw [Nat.add_zero] at hget
    rw [convertLoop_cons_ok iso pt item rest hight acc t v hget hty hsup hnv]
    have hok' : ∀ j, j < rest.length → stepOkAt iso pt rest (hight + 1) j := by
      intro j hj
      obtain ⟨t2, c2, v2, hget2, hcs2, hty2, hsup2, hnv2⟩ :=
        hok (j + 1) (by simpa using Nat.succ_lt_succ hj)
      refine ⟨t2, c2, v2, ?_, ?_, hty2, hsup2, hnv2⟩
      · rw [show hight + 1 + j = hight + (j + 1) by omega]
        exact hget2
      · simpa using hcs2
    obtain ⟨vs, heq, hfa⟩ := ih iso pt (hight + 1) (acc ++ [v]) hok'
    exact ⟨v :: vs, by rw [heq]; simp, List.Forall₂.cons hnv hfa⟩

lemma convertLoop_ne_fault :
    ∀ (reqparms : List FunctionParameterCapsle) (iso : Isolate)
      (parmTypes : List String) (hight : Nat) (acc : List JSVal),
      hight + reqparms.length ≤ parmTypes.length →
      convertLoop iso parmTypes reqparms hight acc ≠ ConvResult.fault := by
  intro reqparms
  induction reqparms with
  | nil => intro iso pt hight acc _; simp [convertLoop]
  | cons item rest ih =>
    intro iso pt hight acc hlen
    have hh : hight < pt.length := by simp at hlen; omega
    have hget : pt.get? hight = some (pt.get ⟨hight, hh⟩) := List.get?_eq_get hh
    by_cases hty : item.CType = pt.get ⟨hight, hh⟩
    · by_cases hsup : item.CType ∈ supportedTags
      · cases hnv : iso.newValue item.Value with
        | error e =>
          rw [convertLoop_cons_nverr iso pt item rest hight acc _ e hget hty hsup hnv]
          simp
        | ok v =>
          rw [convertLoop_cons_ok iso pt item rest hight acc _ v hget hty hsup hnv]
          apply ih
          simp at hlen ⊢
          omega
      · rw [convertLoop_cons_unsupported iso pt item rest hight acc _ hget hty hsup]
        simp
    · rw [convertLoop_cons_mismatch iso pt item rest hight acc _ hget hty]
      simp

lemma convert_fault_of_long :
    ∀ (iso : Isolate) (parmTypes : List String)
      (reqparms : List FunctionParameterCapsle),
      parmTypes.length < reqparms.length →
      (∀ j, j < parmTypes.length → stepOkAt iso parmTypes reqparms 0 j) →
      convertRequestParametersToV8Parameters iso parmTypes reqparms =
        ConvResult.fault := by
  intro iso pt ps hlt hok
  obtain ⟨acc2, heq⟩ := convertLoop_skip pt.length iso pt ps 0 [] hok (le_of_lt hlt)
  unfold convertRequestParametersToV8Parameters
  rw [heq]
  cases hd : ps.drop pt.length with
  | nil =>
    have : ps.length ≤ pt.length := by
      simpa [List.drop_eq_nil_iff] using hd
    omega
  | cons a rest2 =>
    have hnone : pt.get? (0 + pt.length) = none := by
      rw [List.get?_eq_none]
      omega
    rw [List.get?_eq_getElem?] at hnone
    simp [convertLoop, hnone]

lemma convert_err_of_failing_prefix :
    ∀ (iso : Isolate) (parmTypes : List String)
      (reqparms : List FunctionParameterCapsle),
      parmTypes.length < reqparms.length →
      ¬(∀ j, j < parmTypes.length → stepOkAt iso parmTypes reqparms 0 j) →
      ∃ msg, convertRequestParametersToV8Parameters iso parmTypes reqparms =
        ConvResult.err msg := by
  intro iso pt ps hlt hnot
  classical
  push_neg at hnot
  obtain ⟨j0, hj0, hfail0⟩ := hnot
  have hP : ∃ j, j < pt.length ∧ ¬stepOkAt iso pt ps 0 j := ⟨j0, hj0, hfail0⟩
  have hi : Nat.find hP < pt.length := (Nat.find_spec hP).1
  have hfail : ¬stepOkAt iso pt ps 0 (Nat.find hP) := (Nat.find_spec hP).2
  have hok : ∀ j, j < Nat.find hP → stepOkAt iso pt ps 0 j := by
    intro j hj
    by_contra hcon
    exact Nat.find_min hP hj ⟨lt_trans hj hi, hcon⟩
  have hit : Nat.find hP < ps.length := lt_trans hi hlt
  have hgt : pt.get? (Nat.find hP) = some (pt.get ⟨Nat.find hP, hi⟩) :=
    List.get?_eq_get hi
  have hgc : ps.get? (Nat.find hP) = some (ps.get ⟨Nat.find hP, hit⟩) :=
    List.get?_eq_get hit
  obtain ⟨acc2, heq⟩ := convertLoop_skip (Nat.find hP) iso pt ps 0 []
    hok (le_of_lt hit)
  have hdrop : ps.drop (Nat.find hP) =
      ps.get ⟨Nat.find hP, hit⟩ :: ps.drop (Nat.find hP + 1) := by
    rw [List.drop_eq_get_cons hit]
  by_cases hty : (ps.get ⟨Nat.find hP, hit⟩).CType = pt.get ⟨Nat.find hP, hi⟩
  · by_cases hsup : (ps.get ⟨Nat.find hP, hit⟩).CType ∈ supportedTags
    · cases hnv : iso.newValue (ps.get ⟨Nat.find hP, hit⟩).Value with
      | ok v =>
        refine absurd ?_ hfail
        exact ⟨pt.get ⟨Nat.find hP, hi⟩, ps.get ⟨Nat.find hP, hit⟩, v,
          by rw [Nat.zero_add]; exact hgt, hgc, hty, hsup, hnv⟩
      | error e =>
        refine ⟨"convertRequestParametersToV8Parameters: " ++ e, ?_⟩
        unfold convertRequestParametersToV8Parameters
        rw [heq, hdrop]
        exact convertLoop_cons_nverr iso pt _ _ (0 + Nat.find hP) acc2 _ e
          (by rw [Nat.zero_add]; exact hgt) hty hsup hnv
    · refine ⟨"convertRequestParametersToV8Parameters: unsuported datatype", ?_⟩
      unfold convertRequestParametersToV8Parameters
      rw [heq, hdrop]
      exact convertLoop_cons_unsupported iso pt _ _ (0 + Nat.find hP) acc2 _
        (by rw [Nat.zero_add]; exact hgt) hty hsup
  · refine ⟨"convertRequestParametersToV8Parameters: not same parameter", ?_⟩
    unfold convertRequestParametersToV8Parameters
    rw [heq, hdrop]
    exact convertLoop_cons_mismatch iso pt _ _ (0 + Nat.find hP) acc2 _
      (by rw [Nat.zero_add]; exact hgt) hty

lemma objSet_lookup_self :
    ∀ (h : List (String × JSVal)) (k : String) (v : JSVal),
      (objSet h k v).lookup k = some v := by
  intro h k v
  induction h with
  | nil => simp [objSet, List.lookup]
  | cons p rest ih =>
    obtain ⟨k2, v2⟩ := p
    by_cases hk : k2 = k
    · subst hk
      simp [objSet, List.lookup]
    · have hb : (k == k2) = false := beq_eq_false_iff_ne.mpr (Ne.symm hk)
      have hobj : objSet ((k2, v2) :: rest) k v = (k2, v2) :: objSet rest k v := by
        simp [objSet, hk]
      rw [hobj]
      simp only [List.lookup]
      rw [hb]
      exact ih

lemma objSet_lookup_ne :
    ∀ (h : List (String × JSVal)) (k k2 : String) (v : JSVal), k ≠ k2 →
      (objSet h k2 v).lookup k = h.lookup k := by
  intro h k k2 v hne
  have hb : (k == k2) = false := beq_eq_false_iff_ne.mpr hne
  induction h with
  | nil =>
    simp only [objSet, List.lookup]
    rw [hb]
  | cons p rest ih =>
    obtain ⟨k3, v3⟩ := p
    by_cases hk : k3 = k2
    · subst hk
      have hobj : objSet ((k3, v3) :: rest) k3 v = (k3, v) :: rest := by
        simp [objSet]
      rw [hobj]
      simp only [List.lookup]
      rw [hb]
    · have hobj : objSet ((k3, v3) :: rest) k2 v = (k3, v3) :: objSet rest k2 v := by
        simp [objSet, hk]
      rw [hobj]
      simp only [List.lookup]
      cases hbk : (k == k3) with
      | true => rfl
      | false => exact ih

lemma v8buildHeaderSlice_length :
    ∀ (vals : List String) (iso : Isolate) (acc ws : List JSVal),
      v8buildHeaderSlice iso vals acc = Except.ok ws →
      ws.length = acc.length + vals.length := by
  intro vals
  induction vals with
  | nil =>
    intro iso acc ws h
    simp only [v8buildHeaderSlice] at h
    cases h
    simp
  | cons val rest ih =>
    intro iso acc ws h
    simp only [v8buildHeaderSlice] at h
    cases hnv : iso.newValue (JSVal.strV val) with
    | error e => rw [hnv] at h; cases h
    | ok v =>
      rw [hnv] at h
      have := ih iso (acc ++ [v]) ws h
      simp at this
      simp [this]
      omega

lemma v8buildHeaders_lookup_of_notmem :
    ∀ (entries : List (String × List String)) (iso : Isolate)
      (headers fields : List (String × JSVal)) (k : String),
      k ∉ entries.map Prod.fst →
      v8buildHeaders iso entries headers = Except.ok fields →
      fields.lookup k = headers.lookup k := by
  intro entries
  induction entries with
  | nil =>
    intro iso headers fields k _ h
    simp only [v8buildHeaders] at h
    cases h
    rfl
  | cons p rest ih =>
    intro iso headers fields k hnm h
    obtain ⟨k2, vals2⟩ := p
    simp only [v8buildHeaders] at h
    cases hs : v8buildHeaderSlice iso vals2 [] with
    | error e => rw [hs] at h; cases h
    | ok slice =>
      rw [hs] at h
      simp only [List.map_cons, List.mem_cons, not_or] at hnm
      obtain ⟨hk, hrest⟩ := hnm
      rw [ih iso (objSet headers k2 (JSVal.arrV slice)) fields k hrest h]
      exact objSet_lookup_ne headers k k2 (JSVal.arrV slice) hk

lemma v8buildHeaders_lookup :
    ∀ (entries : List (String × List String)) (iso : Isolate)
      (headers fields : List (String × JSVal)) (k : String) (vs : List String),
      (entries.map Prod.fst).Nodup → (k, vs) ∈ entries →
      v8buildHeaders iso entries headers = Except.ok fields →
      ∃ ws, fields.lookup k = some (JSVal.arrV ws) ∧ ws.length = vs.length := by
  intro entries
  induction entries with
  | nil =>
    intro iso headers fields k vs _ hmem _
    simp at hmem
  | cons p rest ih =>
    intro iso headers fields k vs hnd hmem h
    obtain ⟨k2, vals2⟩ := p
    simp only [v8buildHeaders] at h
    cases hs : v8buildHeaderSlice iso vals2 [] with
    | error e => rw [hs] at h; cases h
    | ok slice =>
      rw [hs] at h
      rcases List.mem_cons.mp hmem with heq | hmem2
      · have hk2 : k = k2 := (Prod.ext_iff.mp heq).1
        have hv2 : vs = vals2 := (Prod.ext_iff.mp heq).2
        subst hk2
        subst hv2
        have hnotin : k ∉ rest.map Prod.fst := by
          simp only [List.map_cons, List.nodup_cons] at hnd
          exact hnd.1
        have hlk := v8buildHeaders_lookup_of_notmem rest iso
          (objSet headers k (JSVal.arrV slice)) fields k hnotin h
        rw [hlk, objSet_lookup_self]
        refine ⟨slice, rfl, ?_⟩
        simpa using v8buildHeaderSlice_length vs iso [] slice hs
      · have hnd2 : (rest.map Prod.fst).Nodup := by
          simp only [List.map_cons, List.nodup_cons] at hnd
          exact hnd.2
        exact ih iso (objSet headers k2 (JSVal.arrV slice)) fields k vs hnd2 hmem2 h

/-- C1: Single-outcome invariant.  On a fresh request context, any
interleaving of resolve / reject / exception / disconnect terminator
signals delivers at most one `FunctionCallState` through the response
sink; when at least one signal arrives, the outcome of the first signal is the
one delivered and the context becomes terminal; and on a terminal
context every terminator call is a no-op (the terminal-flag guard). -/
theorem singleOutcomeInvariant :
    ∀ (sigs : List TermSignal) (s : TermSignal) (rest : List TermSignal)
      (o : SharedFunctionRequestContext),
      (runSignals freshCtx sigs).responseChanWrites.length ≤ 1 ∧
      runSignals freshCtx (s :: rest) =
        { terminal := true, responseChanWrites := [signalOutcome s] } ∧
      applyTermSignal { o with terminal := true } s = { o with terminal := true } := by
  intro sigs s rest o
  refine ⟨?_, ?_, ?_⟩
  · cases sigs with
    | nil => simp [runSignals, freshCtx]
    | cons s' rest' =>
      have h1 : runSignals freshCtx (s' :: rest') =
          { terminal := true, responseChanWrites := [signalOutcome s'] } := by
        show runSignals (applyTermSignal freshCtx s') rest' = _
        rw [applyTermSignal_fresh]
        exact runSignals_of_terminal rest' _ rfl
      rw [h1]
      simp
  · show runSignals (applyTermSignal freshCtx s) rest = _
    rw [applyTermSignal_fresh]
    exact runSignals_of_terminal rest _ rfl
  · exact applyTermSignal_of_terminal _ s rfl

/-- C5: The promise poll step.  `Pending` spawns exactly one re-submission
of the check after a fixed 1 ms delay; `Rejected` performs exactly one
microtask checkpoint; `Fulfilled` does nothing; the poll never returns a
non-nil error and never writes a terminal outcome to the response sink. -/
theorem promisePollStepBehavior :
    callInKernelEventLoopCheck PromState.pending =
      ([PollEffect.sleepThenResubmitCheck 1], none) ∧
    callInKernelEventLoopCheck PromState.rejected =
      ([PollEffect.performMicrotaskCheckpoint], none) ∧
    callInKernelEventLoopCheck PromState.fulfilled = ([], none) ∧
    ∀ (st : PromState) (fcs : FunctionCallState),
      PollEffect.sinkWrite fcs ∉ (callInKernelEventLoopCheck st).1 := by
  refine ⟨rfl, rfl, rfl, ?_⟩
  intro st fcs
  cases st <;> simp [callInKernelEventLoopCheck]

/-- C10: `callInKernelEventLoopCheck` returns the nil error on every
input, so in the `functionCallInEventloopFinall` task body the
`klopr.SetError` branch is unreachable and the `klopr` trace of the body is
always exactly `SetResult(nil)`. -/
theorem finallBodyNeverSetsError :
    ∀ (st : PromState),
      (callInKernelEventLoopCheck st).2 = none ∧
      (functionCallInEventloopFinallBody st).2 = [KloprOp.setResultNil] ∧
      ∀ (e : String),
        KloprOp.setError e ∉ (functionCallInEventloopFinallBody st).2 := by
  intro st
  cases st <;>
    exact ⟨rfl, rfl, by intro e; simp [functionCallInEventloopFinallBody,
      callInKernelEventLoopCheck]⟩

/-- C2 counterexample: when the wrapper call returns an error (a
synchronous throw), the `functionCallInEventloop` task body panics with
that error instead of completing; in particular it never reaches any
`klopr` call, so the error setter is not invoked. -/
theorem syncThrowPanicsCounterexample :
    functionCallInEventloopBody (Except.error "engine throw") none =
      TaskBodyOutcome.panicked "engine throw" ∧
    ∀ (ops : List KloprOp),
      functionCallInEventloopBody (Except.error "engine throw") none ≠
        TaskBodyOutcome.completed ops := by
  refine ⟨rfl, ?_⟩
  intro ops h
  simp [functionCallInEventloopBody] at h

/-- C2 amended: for every synchronous throw during the T3 invoke, the
engine-loop task body panics with the error of the engine; it neither records
the error through the error setter of the task nor completes. -/
theorem syncThrowPanicsWithEngineError :
    ∀ (e : String) (submitErr : GoError),
      functionCallInEventloopBody (Except.error e) submitErr =
        TaskBodyOutcome.panicked e := by
  intro e s
  rfl

/-- C4 counterexample: when the wrapper return value is not a promise,
the T4 task body panics with `"isnr promise"` instead of completing, so
no `aborted` terminal state is emitted and nothing is logged. -/
theorem nonPromiseResultPanicsCounterexample :
    functionCallInEventloopPromiseOperationBody
        ⟨false, Except.error "not a promise"⟩ none =
      TaskBodyOutcome.panicked "isnr promise" ∧
    ∀ (run : PromiseOpRun),
      functionCallInEventloopPromiseOperationBody
          ⟨false, Except.error "not a promise"⟩ none ≠
        TaskBodyOutcome.completed run := by
  constructor
  · rfl
  · intro run h
    simp [functionCallInEventloopPromiseOperationBody] at h

/-- C4 amended: for every call whose wrapper return value is not a
promise, the T4 task body panics with `"isnr promise"` (a process crash
of the engine-loop worker), rather than emitting an `aborted` terminal
state. -/
theorem nonPromiseResultPanics :
    ∀ (v : V8Value) (submitErr : GoError), v.isPromise = false →
      functionCallInEventloopPromiseOperationBody v submitErr =
        TaskBodyOutcome.panicked "isnr promise" := by
  intro v s h
  simp [functionCallInEventloopPromiseOperationBody, h]

/-- Witness for the C4 amended theorem at a concrete non-promise value. -/
theorem nonPromiseResultPanics_witness :
    functionCallInEventloopPromiseOperationBody
        ⟨false, Except.error "x"⟩ none = TaskBodyOutcome.panicked "isnr promise" :=
  nonPromiseResultPanics ⟨false, Except.error "x"⟩ none rfl

/-- C6: In T4, for every promise-valued wrapper result the task body
attaches exactly `Then(funcFinal, throwProm)` followed by
`Catch(throwProm)`; `funcFinal` invokes `functionCallFinal` on the
context and returns `undefined`, and `throwProm` invokes
`functionCallException` with the stringified first argument (the
rejection reason) and returns `undefined`. -/
theorem settlementCallbacksAttached :
    ∀ (p : V8Promise) (submitErr : GoError),
      (∃ ops : List KloprOp,
        functionCallInEventloopPromiseOperationBody ⟨true, Except.ok p⟩ submitErr =
          TaskBodyOutcome.completed
            ⟨⟨p.state, p.thenHandlers ++ [(funcFinal, throwProm)],
              p.catchHandlers ++ [throwProm]⟩, ops⟩) ∧
      (∀ info : FunctionCallbackInfo,
        funcFinal info = CallbackRun.returns [CtxCall.callFinal] JSVal.undef) ∧
      (∀ (a : JSVal) (rest : List JSVal),
        throwProm ⟨a :: rest⟩ =
          CallbackRun.returns [CtxCall.callException (v8String a)] JSVal.undef) := by
  intro p s
  refine ⟨?_, fun _ => rfl, fun _ _ => rfl⟩
  cases s with
  | none => exact ⟨[KloprOp.setResultNil], rfl⟩
  | some e => exact ⟨[], rfl⟩

/-- C3 counterexample: on a type-mismatch input (spec scenario 4:
signature `["string"]`, params `[{ctype:"number"}]`), the
`functionCallInEventloopInit` task body completes with an empty effect
trace — the error setter is never called, no terminal state is emitted,
and the step towards invoking the user function is not submitted. -/
theorem initBodySilentOnTypeErrorCounterexample :
    functionCallInEventloopInitBody identityIsolate ["string"]
        [⟨"number", JSVal.numV 1⟩] (Except.ok ()) none =
      TaskBodyOutcome.completed [] ∧
    ∀ (e : String), InitOp.setError e ∉ ([] : List InitOp) ∧
      InitOp.submitProxyObjectPrepare ∉ ([] : List InitOp) := by
  exact ⟨rfl, fun e => ⟨by simp, by simp⟩⟩

/-- C3 amended: for every T1 failure (parameter marshalling error or
request-object construction error), the task body returns silently with
an empty effect trace: the error setter is not invoked, no terminal
state is emitted by this task, and the next pipeline step — the path on
which the user function would be invoked — is never submitted. -/
theorem initBodySilentOnT1Error :
    ∀ (iso : Isolate) (parmTypes : List String)
      (reqparms : List FunctionParameterCapsle) (objRes : Except String Unit)
      (submitErr : GoError),
      ((∃ msg, convertRequestParametersToV8Parameters iso parmTypes reqparms =
          ConvResult.err msg) ∨
        (∃ vals e, convertRequestParametersToV8Parameters iso parmTypes reqparms =
          ConvResult.ok vals ∧ objRes = Except.error e)) →
      functionCallInEventloopInitBody iso parmTypes reqparms objRes submitErr =
        TaskBodyOutcome.completed [] := by
  intro iso pt ps objRes s h
  rcases h with ⟨msg, hc⟩ | ⟨vals, e, hc, ho⟩
  · simp [functionCallInEventloopInitBody, hc]
  · simp [functionCallInEventloopInitBody, hc, ho]

/-- Witness for the C3 amended theorem at a concrete mismatch input. -/
theorem initBodySilentOnT1Error_witness :
    functionCallInEventloopInitBody identityIsolate ["boolean"]
        [⟨"string", JSVal.strV "y"⟩] (Except.ok ()) none =
      TaskBodyOutcome.completed [] :=
  initBodySilentOnT1Error identityIsolate ["boolean"] [⟨"string", JSVal.strV "y"⟩]
    (Except.ok ()) none
    (Or.inl ⟨"convertRequestParametersToV8Parameters: not same parameter", rfl⟩)

/-- C7 counterexample: the type-mismatch error does not name the failing
index.  A mismatch at index 0 and a mismatch at index 1 produce the very
same error value, so the error cannot carry the index. -/
theorem mismatchErrorLacksIndexCounterexample :
    convertRequestParametersToV8Parameters identityIsolate ["number", "number"]
        [⟨"string", JSVal.strV "a"⟩, ⟨"number", JSVal.numV 1⟩] =
      ConvResult.err "convertRequestParametersToV8Parameters: not same parameter" ∧
    convertRequestParametersToV8Parameters identityIsolate ["number", "number"]
        [⟨"number", JSVal.numV 1⟩, ⟨"string", JSVal.strV "a"⟩] =
      ConvResult.err "convertRequestParametersToV8Parameters: not same parameter" :=
  ⟨rfl, rfl⟩

/-- C7 amended: parameter marshalling checks positions left to right.
If the first failing position `i` has `params[i].ctype ≠ signature[i]`,
the operation fails with the fixed type-mismatch error (which does not
name `i`) and returns no converted values; if instead position `i`
matches the signature but its tag is outside
{boolean, number, string, array, object, bytes}, it fails with the
unsupported-datatype error; and when every position validates and
`v8.NewValue` succeeds, it returns exactly the engine counterparts of the
given values. -/
theorem convertParamsBehavior :
    (∀ (iso : Isolate) (parmTypes : List String)
       (reqparms : List FunctionParameterCapsle) (i : Nat) (t : String)
       (c : FunctionParameterCapsle),
       (∀ j, j < i → stepOkAt iso parmTypes reqparms 0 j) →
       parmTypes.get? i = some t → reqparms.get? i = some c → c.CType ≠ t →
       convertRequestParametersToV8Parameters iso parmTypes reqparms =
         ConvResult.err "convertRequestParametersToV8Parameters: not same parameter") ∧
    (∀ (iso : Isolate) (parmTypes : List String)
       (reqparms : List FunctionParameterCapsle) (i : Nat) (t : String)
       (c : FunctionParameterCapsle),
       (∀ j, j < i → stepOkAt iso parmTypes reqparms 0 j) →
       parmTypes.get? i = some t → reqparms.get? i = some c → c.CType = t →
       c.CType ∉ supportedTags →
       convertRequestParametersToV8Parameters iso parmTypes reqparms =
         ConvResult.err "convertRequestParametersToV8Parameters: unsuported datatype") ∧
    (∀ (iso : Isolate) (parmTypes : List String)
       (reqparms : List FunctionParameterCapsle),
       (∀ j, j < reqparms.length → stepOkAt iso parmTypes reqparms 0 j) →
       ∃ vs, convertRequestParametersToV8Parameters iso parmTypes reqparms =
           ConvResult.ok vs ∧
         List.Forall₂ (fun c v => iso.newValue c.Value = Except.ok v) reqparms vs) := by
  refine ⟨?_, ?_, ?_⟩
  · intro iso pt ps i t c hok hgt hgc hne
    have hi : i < ps.length := List.get?_eq_some.mp hgc |>.1
    obtain ⟨acc2, heq⟩ := convertLoop_skip i iso pt ps 0 [] hok (le_of_lt hi)
    have hdrop : ps.drop i = c :: ps.drop (i + 1) := by
      obtain ⟨hlt, hget⟩ := List.get?_eq_some.mp hgc
      rw [List.drop_eq_get_cons hlt, hget]
    unfold convertRequestParametersToV8Parameters
    rw [heq, hdrop]
    exact convertLoop_cons_mismatch iso pt c _ (0 + i) acc2 t
      (by rw [Nat.zero_add]; exact hgt) hne
  · intro iso pt ps i t c hok hgt hgc hty hsup
    have hi : i < ps.length := List.get?_eq_some.mp hgc |>.1
    obtain ⟨acc2, heq⟩ := convertLoop_skip i iso pt ps 0 [] hok (le_of_lt hi)
    have hdrop : ps.drop i = c :: ps.drop (i + 1) := by
      obtain ⟨hlt, hget⟩ := List.get?_eq_some.mp hgc
      rw [List.drop_eq_get_cons hlt, hget]
    unfold convertRequestParametersToV8Parameters
    rw [heq, hdrop]
    exact convertLoop_cons_unsupported iso pt c _ (0 + i) acc2 t
      (by rw [Nat.zero_add]; exact hgt) hty hsup
  · intro iso pt ps hok
    obtain ⟨vs, heq, hfa⟩ := convertLoop_all_ok ps iso pt 0 [] hok
    exact ⟨vs, by simpa using heq, hfa⟩

/-- Witness for the C7 amended theorem: the all-valid clause at signature
`["number","string"]` with matching parameters converts both values. -/
theorem convertParamsBehavior_witness :
    ∃ vs, convertRequestParametersToV8Parameters identityIsolate ["number", "string"]
        [⟨"number", JSVal.numV 7⟩, ⟨"string", JSVal.strV "a"⟩] = ConvResult.ok vs ∧
      List.Forall₂
        (fun (c : FunctionParameterCapsle) (v : JSVal) =>
          identityIsolate.newValue c.Value = Except.ok v)
        [⟨"number", JSVal.numV 7⟩, ⟨"string", JSVal.strV "a"⟩] vs :=
  convertParamsBehavior.2.2 identityIsolate ["number", "string"]
    [⟨"number", JSVal.numV 7⟩, ⟨"string", JSVal.strV "a"⟩]
    (by
      intro j hj
      simp only [List.length_cons, List.length_nil] at hj
      interval_cases j
      · exact ⟨"number", ⟨"number", JSVal.numV 7⟩, JSVal.numV 7, rfl, rfl, rfl,
          by simp [supportedTags], rfl⟩
      · exact ⟨"string", ⟨"string", JSVal.strV "a"⟩, JSVal.strV "a", rfl, rfl, rfl,
          by simp [supportedTags], rfl⟩)

/-- C8 counterexample: a request parameter list strictly longer than the
signature does not always fault — a validation error in the prefix
returns an error first.  With signature `["number"]` and two parameters
whose first mismatches, the result is the type-mismatch error, not the
out-of-range fault. -/
theorem overLengthParamsCounterexample :
    convertRequestParametersToV8Parameters identityIsolate ["number"]
        [⟨"string", JSVal.strV "a"⟩, ⟨"number", JSVal.numV 2⟩] =
      ConvResult.err "convertRequestParametersToV8Parameters: not same parameter" ∧
    convertRequestParametersToV8Parameters identityIsolate ["number"]
        [⟨"string", JSVal.strV "a"⟩, ⟨"number", JSVal.numV 2⟩] ≠
      ConvResult.fault := by
  have h1 : convertRequestParametersToV8Parameters identityIsolate ["number"]
      [⟨"string", JSVal.strV "a"⟩, ⟨"number", JSVal.numV 2⟩] =
      ConvResult.err "convertRequestParametersToV8Parameters: not same parameter" := rfl
  exact ⟨h1, by rw [h1]; simp⟩

/-- C8 amended: the marshaller is total (never faults) whenever the
request parameter list is no longer than the signature list — an
over-length signature is silently accepted — and for a strictly longer
request parameter list it faults on the `parmTypes` indexing exactly when
all parameters at signature positions validate and convert: the forward
direction (all-valid prefix implies fault) and the converse (some
signature-position parameter fails to validate — type mismatch,
unsupported tag, or `v8.NewValue` error — implies an error is returned
instead of the fault) are both proved. -/
theorem convertArityBehavior :
    (∀ (iso : Isolate) (parmTypes : List String)
       (reqparms : List FunctionParameterCapsle),
       reqparms.length ≤ parmTypes.length →
       convertRequestParametersToV8Parameters iso parmTypes reqparms ≠
         ConvResult.fault) ∧
    (∀ (iso : Isolate) (parmTypes : List String)
       (reqparms : List FunctionParameterCapsle),
       parmTypes.length < reqparms.length →
       (∀ j, j < parmTypes.length → stepOkAt iso parmTypes reqparms 0 j) →
       convertRequestParametersToV8Parameters iso parmTypes reqparms =
         ConvResult.fault) ∧
    (∀ (iso : Isolate) (parmTypes : List String)
       (reqparms : List FunctionParameterCapsle),
       parmTypes.length < reqparms.length →
       ¬(∀ j, j < parmTypes.length → stepOkAt iso parmTypes reqparms 0 j) →
       ∃ msg, convertRequestParametersToV8Parameters iso parmTypes reqparms =
         ConvResult.err msg) := by
  refine ⟨?_, convert_fault_of_long, convert_err_of_failing_prefix⟩
  intro iso pt ps h
  exact convertLoop_ne_fault ps iso pt 0 [] (by omega)

/-- Witness for the C8 amended theorem: one signature entry, two valid
`number` parameters — the marshaller faults on the out-of-range index —
and, for the converse clause, the same input under an isolate whose
`v8.NewValue` fails returns an error instead of faulting. -/
theorem convertArityBehavior_witness :
    (convertRequestParametersToV8Parameters identityIsolate ["number"]
        [⟨"number", JSVal.numV 1⟩, ⟨"number", JSVal.numV 2⟩] = ConvResult.fault) ∧
    (∃ msg, convertRequestParametersToV8Parameters failingIsolate ["number"]
        [⟨"number", JSVal.numV 1⟩, ⟨"number", JSVal.numV 2⟩] =
      ConvResult.err msg) :=
  ⟨convertArityBehavior.2.1 identityIsolate ["number"]
    [⟨"number", JSVal.numV 1⟩, ⟨"number", JSVal.numV 2⟩] (by simp)
    (by
      intro j hj
      simp only [List.length_cons, List.length_nil] at hj
      interval_cases j
      exact ⟨"number", ⟨"number", JSVal.numV 1⟩, JSVal.numV 1, rfl, rfl, rfl,
        by simp [supportedTags], rfl⟩),
   convertArityBehavior.2.2 failingIsolate ["number"]
    [⟨"number", JSVal.numV 1⟩, ⟨"number", JSVal.numV 2⟩] (by simp)
    (by
      intro hall
      obtain ⟨t, c, v, _, _, _, _, hnv⟩ := hall 0 (by simp)
      simp [failingIsolate] at hnv)⟩

/-- C9: Header multiplicity.  For every HTTP request and every header
name `k` that occurs in it (Go map keys are unique), the built request
object field `http.Headers[k]` is an array whose length equals the number of
values recorded for header `k` in the source request; in particular a
single-valued header is an array of length one. -/
theorem headerMultiplicity :
    ∀ (iso : Isolate) (req : HttpRequestModel)
      (fields : List (String × JSVal)) (k : String) (vs : List String),
      (req.Header.map Prod.fst).Nodup → (k, vs) ∈ req.Header →
      v8makeSharedFunctionObjectHeaders iso req = Except.ok fields →
      ∃ ws, fields.lookup k = some (JSVal.arrV ws) ∧ ws.length = vs.length := by
  intro iso req fields k vs hnd hmem h
  exact v8buildHeaders_lookup req.Header iso [] fields k vs hnd hmem h

/-- Witness for C9: a two-valued header `X-F` and a one-valued header
`Host` yield arrays of lengths two and one respectively; shown for
`X-F`. -/
theorem headerMultiplicity_witness :
    ∃ ws, List.lookup "X-F"
        [("X-F", JSVal.arrV [JSVal.strV "a", JSVal.strV "b"]),
          ("Host", JSVal.arrV [JSVal.strV "h"])] = some (JSVal.arrV ws) ∧
      ws.length = (["a", "b"] : List String).length :=
  headerMultiplicity identityIsolate ⟨[("X-F", ["a", "b"]), ("Host", ["h"])]⟩
    [("X-F", JSVal.arrV [JSVal.strV "a", JSVal.strV "b"]),
      ("Host", JSVal.arrV [JSVal.strV "h"])] "X-F" ["a", "b"]
    (by simp) (by simp) rfl

end KmoduleRpc
